import Mathlib

/-!
Shallow embedding of `qtcodes/circuits/base.py` (topological_codes):
the `_Stabilizer` / `_TopologicalLattice` / `TopologicalQubit` base classes.

Pure data is translated directly; the mutable `QuantumCircuit` is threaded
as explicit state (an append-only operation list plus register lists);
Python exceptions become `Except` results carrying a `PyError` that records
the Python exception class.  Abstract methods (subclass-supplied geometry
and stabilizer behaviour) are modelled as function-valued fields, with their
observable behaviour taken from the spec where the concrete subclasses are
not part of the sources.
-/

namespace QTCodes

/-- A qiskit `Qubit` handle.  Qiskit qubits are plain objects, hence always
truthy in Python; we only need identity, so a numeric id suffices. -/
structure Qubit where
  id : Nat
deriving DecidableEq, Repr

/-- A qiskit `QuantumRegister`: a named group of qubits. -/
structure QuantumRegister where
  name : String
  size : Nat
deriving DecidableEq, Repr

/-- A qiskit `ClassicalRegister`. -/
structure ClassicalRegister where
  name : String
  size : Nat
deriving DecidableEq, Repr

/-- Operations appended to the shared circuit: named gates over qubit lists,
synchronization barriers, and the (abstract) lattice-level logical CX. -/
inductive Op where
  | gate (name : String) (qubits : List Qubit)
  | barrier
  | latticeCx (control : Option Qubit) (target : Option Qubit)
deriving DecidableEq, Repr

/-- Python exception classes raised by the embedded code.  `assertionError`
is what a failing `assert` statement raises; `latticeError` is the
`LatticeError` class defined in `base.py`; `valueError` is raised by
`TopologicalQubit.cx`; `indexError` is an out-of-bounds list subscript. -/
inductive PyError where
  | assertionError (msg : String)
  | latticeError (msg : String)
  | valueError (msg : String)
  | indexError
deriving DecidableEq, Repr

/-- Whether an error is of the `LatticeError` class. -/
def PyError.isLatticeError : PyError → Bool
  | .latticeError _ => true
  | _ => false

/-- The shared circuit-building resource (`QuantumCircuit`): an append-only
operation trace plus the registers added so far. -/
structure QuantumCircuit where
  ops : List Op := []
  qregs : List QuantumRegister := []
  cregs : List ClassicalRegister := []
deriving DecidableEq, Repr

/-- Append emitted operations to the circuit (all gate emission in the
embedded code only ever appends). -/
def QuantumCircuit.appendOps (c : QuantumCircuit) (new : List Op) : QuantumCircuit :=
  { c with ops := c.ops ++ new }

/-- Python truthiness of an `Optional[Qubit]`: `None` is falsy, any qiskit
`Qubit` object is truthy (no `__bool__`/`__len__` override). -/
def pyBoolQubit (q : Option Qubit) : Bool :=
  q.isSome

/-- Python truthiness of an `Optional[List[...]]`: `None` and the empty list
are falsy, a nonempty list is truthy. -/
def pyBoolList {α : Type} (l : Option (List α)) : Bool :=
  match l with
  | none => false
  | some xs => !xs.isEmpty

/-- A concrete `_Stabilizer` subclass, as used by `entangle`:
`stabilizer_cls(self.circ, qubit_indices[i]).entangle()` constructs the
stabilizer over one plaquette's qubits and appends its gate sequence.
Modelled from the spec: `entangle()` "has no return value; its only
observable effect is appending operations to the shared circuit resource",
the sequence being determined by the plaquette's ordered qubit list, so a
subclass is the function giving that gate sequence. -/
structure StabilizerClass where
  entangleOps : List Qubit → List Op

/-- The per-lattice state stored by `_TopologicalLattice.__init__`:
name, (validated) params, the quantum/classical register dicts (insertion
ordered, keys unique as in a Python dict), and the plaquette blueprint
(`self.qubit_indices`, `self.stabilizers`). -/
structure LatticeState where
  name : String
  params : List (String × Int)
  qregisters : List (String × QuantumRegister)
  cregisters : List (String × ClassicalRegister)
  qubit_indices : List (List Qubit)
  stabilizers : List StabilizerClass

/-- The abstract-method bundle a concrete lattice subclass supplies.
Modelled from the spec for the parts not in the sources: each abstract
gate-emitting operation's "only observable effect is appending operations
to the shared circuit resource" (so it is the list of operations it
appends, as a function of its arguments), and `parse_readout` "is a pure,
side-effect-free function" from the readout string and optional type hint
to the logical readout value and syndrome-hit map. -/
structure LatticeOps where
  resetXOps : List Op := []
  resetZOps : List Op := []
  xOps : List Op := []
  zOps : List Op := []
  xCIfOps : ClassicalRegister → Int → List Op := fun _ _ => []
  zCIfOps : ClassicalRegister → Int → List Op := fun _ _ => []
  cxOps : Option Qubit → Option Qubit → List Op := fun c t => [Op.latticeCx c t]
  readoutXOps : Option ClassicalRegister → List Op := fun _ => []
  readoutZOps : Option ClassicalRegister → List Op := fun _ => []
  latticeReadoutXOps : List Op := []
  latticeReadoutZOps : List Op := []
  parseReadoutFn : String → Option String →
      Except PyError (Int × List (String × List (Int × Int × Int))) :=
    fun _ _ => .ok (0, [])

/-- A `_TopologicalLattice` instance: its stored state plus the
subclass-supplied behaviour of its abstract methods. -/
structure Lattice where
  state : LatticeState
  ops : LatticeOps

/-! ## `_TopologicalLattice.entangle` (base.py lines 108-131) -/

/-- The loop body of `entangle`:
`for i, stabilizer_cls in enumerate(stabilizers):`
`    stabilizer = stabilizer_cls(self.circ, qubit_indices[i])`
`    stabilizer.entangle()`
`    self.circ.barrier()`
Returns the operations appended to the circuit up to completion or up to
the iteration at which `qubit_indices[i]` raises `IndexError`, together
with the outcome. -/
def entangleLoop (qidx : List (List Qubit)) :
    List StabilizerClass → Nat → List Op × Except PyError Unit
  | [], _ => ([], .ok ())
  | cls :: rest, i =>
    match qidx.get? i with
    | none => ([], .error .indexError)
    | some qs =>
      let (tail, r) := entangleLoop qidx rest (i + 1)
      (cls.entangleOps qs ++ Op.barrier :: tail, r)

/-- The qubit-index list `entangle` iterates over:
`qubit_indices = qubit_indices if qubit_indices else self.qubit_indices`
(Python truthiness selection: `None` and the empty list both select the
stored field). -/
def effectiveQubitIndices (l : Lattice) (arg : Option (List (List Qubit))) :
    List (List Qubit) :=
  if pyBoolList arg then arg.getD [] else l.state.qubit_indices

/-- The stabilizer-class list `entangle` iterates over:
`stabilizers = stabilizers if stabilizers else self.stabilizers`. -/
def effectiveStabilizers (l : Lattice) (arg : Option (List StabilizerClass)) :
    List StabilizerClass :=
  if pyBoolList arg then arg.getD [] else l.state.stabilizers

/-- `_TopologicalLattice.entangle(qubit_indices=None, stabilizers=None)`:
the truthiness selection of the effective lists, then the entangling loop.
Returns the lattice and circuit after the call plus the outcome; on an
`IndexError` the operations of the completed iterations are already on the
circuit. -/
def Lattice.entangle (l : Lattice) (circ : QuantumCircuit)
    (qubit_indices : Option (List (List Qubit)))
    (stabilizers : Option (List StabilizerClass)) :
    Lattice × QuantumCircuit × Except PyError Unit :=
  let qidx := effectiveQubitIndices l qubit_indices
  let stabs := effectiveStabilizers l stabilizers
  let (emitted, r) := entangleLoop qidx stabs 0
  (l, circ.appendOps emitted, r)

/-! ## `_TopologicalLattice.__init__` (base.py lines 39-72) -/

/-- The steps of lattice construction, for stating their order. -/
inductive InitStep where
  | validateParams
  | genRegisters
  | dataCheck
  | addRegisters
  | genBlueprint
deriving DecidableEq, Repr

/-- The abstract derivations a concrete code family supplies to
`_TopologicalLattice.__init__`.  Modelled from the spec for the parts not
in the sources: `_params_validate_and_generate` validates and derives the
parameter mapping (failing construction on inconsistent input),
`_gen_registers` fills the quantum/classical register dicts from the
validated params and name prefix, and `_gen_qubit_indices_and_stabilizers`
deterministically computes the plaquette blueprint. -/
structure Geometry where
  validateAndGenerate : List (String × Int) → Except PyError (List (String × Int))
  genRegisters : List (String × Int) → String →
      List (String × QuantumRegister) × List (String × ClassicalRegister)
  genBlueprint : List (String × Int) → String → List (String × QuantumRegister) →
      List (List Qubit) × List StabilizerClass
  latticeOps : LatticeOps := {}

/-- `circ.add_register(*registers)` with
`registers = list(self.qregisters.values()) + list(self.cregisters.values())`. -/
def addRegisters (circ : QuantumCircuit)
    (qregs : List (String × QuantumRegister))
    (cregs : List (String × ClassicalRegister)) : QuantumCircuit :=
  { circ with
    qregs := circ.qregs ++ qregs.map Prod.snd
    cregs := circ.cregs ++ cregs.map Prod.snd }

/-- `_TopologicalLattice.__init__(params, name, circ)`:
stores name/circ/params, runs `_params_validate_and_generate`, runs
`_gen_registers`, checks `assert "data" in self.qregisters` (a failing
`assert` raises `AssertionError` with the given message), adds all
generated quantum and classical registers to the circuit, and computes the
blueprint via `_gen_qubit_indices_and_stabilizers`.  Returns the trace of
construction steps reached, and the constructed lattice and updated
circuit or the error. -/
def latticeInit (g : Geometry) (params : List (String × Int)) (name : String)
    (circ : QuantumCircuit) :
    List InitStep × Except PyError (Lattice × QuantumCircuit) :=
  match g.validateAndGenerate params with
  | .error e => ([.validateParams], .error e)
  | .ok params2 =>
    let regs := g.genRegisters params2 name
    if regs.1.any (fun kv => kv.1 == "data") then
      let circ2 := addRegisters circ regs.1 regs.2
      let blueprint := g.genBlueprint params2 name regs.1
      ([.validateParams, .genRegisters, .dataCheck, .addRegisters, .genBlueprint],
        .ok ({ state :=
                { name := name, params := params2, qregisters := regs.1,
                  cregisters := regs.2, qubit_indices := blueprint.1,
                  stabilizers := blueprint.2 },
               ops := g.latticeOps }, circ2))
    else
      ([.validateParams, .genRegisters, .dataCheck],
        .error (.assertionError "There should be a data qubits register."))

/-! ## The lattice's abstract operational methods, invoked directly
(base.py lines 133-232).  Each gate-emitting method appends its
subclass-defined operation list to the shared circuit. -/

def Lattice.resetX (l : Lattice) (circ : QuantumCircuit) : QuantumCircuit :=
  circ.appendOps l.ops.resetXOps

def Lattice.resetZ (l : Lattice) (circ : QuantumCircuit) : QuantumCircuit :=
  circ.appendOps l.ops.resetZOps

def Lattice.x (l : Lattice) (circ : QuantumCircuit) : QuantumCircuit :=
  circ.appendOps l.ops.xOps

def Lattice.z (l : Lattice) (circ : QuantumCircuit) : QuantumCircuit :=
  circ.appendOps l.ops.zOps

def Lattice.xCIf (l : Lattice) (circ : QuantumCircuit)
    (classical : ClassicalRegister) (val : Int) : QuantumCircuit :=
  circ.appendOps (l.ops.xCIfOps classical val)

def Lattice.zCIf (l : Lattice) (circ : QuantumCircuit)
    (classical : ClassicalRegister) (val : Int) : QuantumCircuit :=
  circ.appendOps (l.ops.zCIfOps classical val)

def Lattice.cx (l : Lattice) (circ : QuantumCircuit)
    (control target : Option Qubit) : QuantumCircuit :=
  circ.appendOps (l.ops.cxOps control target)

def Lattice.readoutX (l : Lattice) (circ : QuantumCircuit)
    (readout_creg : Option ClassicalRegister) : QuantumCircuit :=
  circ.appendOps (l.ops.readoutXOps readout_creg)

def Lattice.readoutZ (l : Lattice) (circ : QuantumCircuit)
    (readout_creg : Option ClassicalRegister) : QuantumCircuit :=
  circ.appendOps (l.ops.readoutZOps readout_creg)

def Lattice.latticeReadoutX (l : Lattice) (circ : QuantumCircuit) : QuantumCircuit :=
  circ.appendOps l.ops.latticeReadoutXOps

def Lattice.latticeReadoutZ (l : Lattice) (circ : QuantumCircuit) : QuantumCircuit :=
  circ.appendOps l.ops.latticeReadoutZOps

def Lattice.parseReadout (l : Lattice) (readout_string : String)
    (readout_type : Option String) :
    Except PyError (Int × List (String × List (Int × Int × Int))) :=
  l.ops.parseReadoutFn readout_string readout_type

/-! ## `TopologicalQubit` facade (base.py lines 235-398) -/

/-- A `TopologicalQubit`: wraps exactly one lattice, with the name and the
shared circuit (base.py lines 250-274). -/
structure TopologicalQubit where
  lattice : Lattice
  name : String
  circ : QuantumCircuit

/-- `TopologicalQubit.reset_x`: `self.lattice.reset_x()`. -/
def TopologicalQubit.resetX (tq : TopologicalQubit) : TopologicalQubit :=
  { tq with circ := tq.lattice.resetX tq.circ }

/-- `TopologicalQubit.reset_z`: `self.lattice.reset_z()`. -/
def TopologicalQubit.resetZ (tq : TopologicalQubit) : TopologicalQubit :=
  { tq with circ := tq.lattice.resetZ tq.circ }

/-- `TopologicalQubit.x`: `self.lattice.x()`. -/
def TopologicalQubit.x (tq : TopologicalQubit) : TopologicalQubit :=
  { tq with circ := tq.lattice.x tq.circ }

/-- `TopologicalQubit.z`: `self.lattice.z()`. -/
def TopologicalQubit.z (tq : TopologicalQubit) : TopologicalQubit :=
  { tq with circ := tq.lattice.z tq.circ }

/-- `TopologicalQubit.x_c_if`: `self.lattice.x_c_if(classical, val)`. -/
def TopologicalQubit.xCIf (tq : TopologicalQubit)
    (classical : ClassicalRegister) (val : Int) : TopologicalQubit :=
  { tq with circ := tq.lattice.xCIf tq.circ classical val }

/-- `TopologicalQubit.z_c_if`: `self.lattice.z_c_if(classical, val)`. -/
def TopologicalQubit.zCIf (tq : TopologicalQubit)
    (classical : ClassicalRegister) (val : Int) : TopologicalQubit :=
  { tq with circ := tq.lattice.zCIf tq.circ classical val }

/-- `TopologicalQubit.cx(control=None, target=None)`:
`if not (bool(control) ^ bool(target)): raise ValueError(...)` and
otherwise `self.lattice.cx(control, target)`.  Returns the facade state
after the call together with the outcome: a raise aborts the call before
the forward, leaving the state as it was. -/
def TopologicalQubit.cx (tq : TopologicalQubit)
    (control target : Option Qubit) : TopologicalQubit × Except PyError Unit :=
  if !(pyBoolQubit control ^^ pyBoolQubit target) then
    (tq, .error (.valueError "Please specify exactly one of source or target"))
  else
    ({ tq with circ := tq.lattice.cx tq.circ control target }, .ok ())

/-- `TopologicalQubit.readout_x`: `self.lattice.readout_x(readout_creg=readout_creg)`. -/
def TopologicalQubit.readoutX (tq : TopologicalQubit)
    (readout_creg : Option ClassicalRegister) : TopologicalQubit :=
  { tq with circ := tq.lattice.readoutX tq.circ readout_creg }

/-- `TopologicalQubit.readout_z`: `self.lattice.readout_z(readout_creg=readout_creg)`. -/
def TopologicalQubit.readoutZ (tq : TopologicalQubit)
    (readout_creg : Option ClassicalRegister) : TopologicalQubit :=
  { tq with circ := tq.lattice.readoutZ tq.circ readout_creg }

/-- `TopologicalQubit.lattice_readout_x`: `self.lattice.lattice_readout_x()`. -/
def TopologicalQubit.latticeReadoutX (tq : TopologicalQubit) : TopologicalQubit :=
  { tq with circ := tq.lattice.latticeReadoutX tq.circ }

/-- `TopologicalQubit.lattice_readout_z`: `self.lattice.lattice_readout_z()`. -/
def TopologicalQubit.latticeReadoutZ (tq : TopologicalQubit) : TopologicalQubit :=
  { tq with circ := tq.lattice.latticeReadoutZ tq.circ }

/-- `TopologicalQubit.parse_readout`:
`return self.lattice.parse_readout(readout_string, readout_type)`. -/
def TopologicalQubit.parseReadout (tq : TopologicalQubit)
    (readout_string : String) (readout_type : Option String) :
    Except PyError (Int × List (String × List (Int × Int × Int))) :=
  tq.lattice.parseReadout readout_string readout_type

/-- A Python method call `tq.parse_readout(s, t)` viewed as a state
transformer: the body (base.py lines 390-398) is a single `return` of the
lattice's `parse_readout`, so the facade state after the call is the state
before it. -/
def TopologicalQubit.parseReadoutRun (tq : TopologicalQubit)
    (readout_string : String) (readout_type : Option String) :
    TopologicalQubit × Except PyError (Int × List (String × List (Int × Int × Int))) :=
  (tq, tq.parseReadout readout_string readout_type)

/-! ## Expected entangle emission and the loop characterization -/

/-- The per-plaquette emission pattern: for each paired (stabilizer class,
qubit-index entry) in order, the class's entangle gate sequence followed
immediately by one barrier, and nothing else. -/
def plaquetteOps : List (StabilizerClass × List Qubit) → List Op
  | [] => []
  | (cls, qs) :: rest => cls.entangleOps qs ++ Op.barrier :: plaquetteOps rest

/-- When the remaining stabilizer list fits inside the qubit-index list
starting at position `i`, the entangle loop succeeds and emits exactly the
per-plaquette pattern over the paired entries. -/
theorem entangleLoop_ok (stabs : List StabilizerClass) (qidx : List (List Qubit))
    (i : Nat) (h : i + stabs.length ≤ qidx.length) :
    entangleLoop qidx stabs i = (plaquetteOps (stabs.zip (qidx.drop i)), .ok ()) := by
  induction stabs generalizing i with
  | nil => simp [entangleLoop, plaquetteOps]
  | cons cls rest ih =>
    have hi : i < qidx.length := by
      simp only [List.length_cons] at h
      omega
    rw [List.drop_eq_getElem_cons hi]
    have hrest : i + 1 + rest.length ≤ qidx.length := by
      simp only [List.length_cons] at h
      omega
    simp [entangleLoop, List.getElem?_eq_getElem hi, plaquetteOps, ih (i + 1) hrest,
      List.zip]

/-! ## Concrete instances used by the witnesses -/

/-- A concrete stabilizer class: emits one two-qubit parity-check pattern
over its plaquette's qubits. -/
def sampleStabilizer : StabilizerClass :=
  ⟨fun qs => [Op.gate "h" qs, Op.gate "cz" qs]⟩

/-- A concrete constructed lattice state (one 9-qubit data group, a
two-plaquette blueprint). -/
def sampleLatticeState : LatticeState :=
  { name := "tq"
    params := [("d", 3)]
    qregisters := [("data", ⟨"tq_data", 9⟩)]
    cregisters := [("data_readout", ⟨"tq_data_readout", 1⟩)]
    qubit_indices := [[⟨0⟩, ⟨1⟩], [⟨2⟩, ⟨3⟩]]
    stabilizers := [sampleStabilizer, sampleStabilizer] }

/-- A concrete lattice with default abstract-method behaviour. -/
def sampleLattice : Lattice :=
  { state := sampleLatticeState, ops := {} }

/-- A concrete facade instance wrapping `sampleLattice`. -/
def sampleTQ : TopologicalQubit :=
  { lattice := sampleLattice, name := "tq", circ := {} }

/-- A geometry whose register generation produces no "data" group. -/
def noDataGeometry : Geometry :=
  { validateAndGenerate := fun p => .ok p
    genRegisters := fun _ _ => ([("mx", ⟨"tq_mx", 4⟩)], [])
    genBlueprint := fun _ _ _ => ([], []) }

/-- A geometry whose register generation produces a "data" group and whose
blueprint derivation yields a two-plaquette layout. -/
def dataGeometry : Geometry :=
  { validateAndGenerate := fun p => .ok (("num_syn", 2) :: p)
    genRegisters := fun _ n =>
      ([("data", ⟨n ++ "_data", 9⟩)], [("data_readout", ⟨n ++ "_data_readout", 1⟩)])
    genBlueprint := fun _ _ _ =>
      ([[⟨0⟩, ⟨1⟩], [⟨2⟩]], [sampleStabilizer, sampleStabilizer]) }

/-! ## Claims -/

/-- C1: `TopologicalQubit.cx` with neither or with both of control/target
supplied fails with the one fixed `ValueError`; with exactly one supplied
it succeeds and forwards to the lattice's `cx`. -/
theorem C1_cx_contract (tq : TopologicalQubit) (control target : Option Qubit) :
    ((control = none ∧ target = none) ∨ (control ≠ none ∧ target ≠ none) →
      tq.cx control target =
        (tq, .error (.valueError "Please specify exactly one of source or target"))) ∧
    ((control ≠ none ∧ target = none) ∨ (control = none ∧ target ≠ none) →
      tq.cx control target =
        ({ tq with circ := tq.lattice.cx tq.circ control target }, .ok ())) := by
  cases control <;> cases target <;>
    simp [TopologicalQubit.cx, pyBoolQubit]

/-- Witness for C1 at concrete inputs: the neither-supplied call fails with
the `ValueError`, the control-only call succeeds and forwards. -/
theorem C1_cx_contract_witness :
    sampleTQ.cx none none =
      (sampleTQ, .error (.valueError "Please specify exactly one of source or target")) ∧
    sampleTQ.cx (some ⟨5⟩) none =
      ({ sampleTQ with circ := sampleTQ.lattice.cx sampleTQ.circ (some ⟨5⟩) none }, .ok ()) :=
  ⟨(C1_cx_contract sampleTQ none none).1 (Or.inl ⟨rfl, rfl⟩),
   (C1_cx_contract sampleTQ (some ⟨5⟩) none).2 (Or.inl ⟨by simp, rfl⟩)⟩

/-- C4: `entangle` with explicit override arguments returns the lattice —
in particular its stored `qubit_indices` and `stabilizers` fields —
unchanged, and a facade `parse_readout` call leaves the facade (and hence
the wrapped lattice's stored blueprint) unchanged. -/
theorem C4_overrides_do_not_mutate (l : Lattice) (circ : QuantumCircuit)
    (qubit_indices : Option (List (List Qubit)))
    (stabilizers : Option (List StabilizerClass))
    (tq : TopologicalQubit) (readout_string : String) (readout_type : Option String) :
    (l.entangle circ qubit_indices stabilizers).1 = l ∧
    (l.entangle circ qubit_indices stabilizers).1.state.qubit_indices =
      l.state.qubit_indices ∧
    (l.entangle circ qubit_indices stabilizers).1.state.stabilizers =
      l.state.stabilizers ∧
    (tq.parseReadoutRun readout_string readout_type).1 = tq :=
  ⟨rfl, rfl, rfl, rfl⟩

/-- C5: when `cx` fails the exactly-one-of check (truthiness of control and
target agree: both supplied or neither), the returned facade state —
shared circuit, lattice, registers — is exactly the pre-call state, and
the failure is the `ValueError`. -/
theorem C5_cx_no_mutation_on_failure (tq : TopologicalQubit)
    (control target : Option Qubit)
    (h : pyBoolQubit control = pyBoolQubit target) :
    (tq.cx control target).1 = tq ∧
    (tq.cx control target).1.circ = tq.circ ∧
    (tq.cx control target).1.lattice = tq.lattice ∧
    (tq.cx control target).2 =
      .error (.valueError "Please specify exactly one of source or target") := by
  unfold TopologicalQubit.cx
  rw [h]
  simp

/-- Witness for C5: the both-supplied call leaves the concrete facade
untouched and fails. -/
theorem C5_cx_no_mutation_on_failure_witness :
    pyBoolQubit (some ⟨1⟩) = pyBoolQubit (some ⟨2⟩) ∧
    (sampleTQ.cx (some ⟨1⟩) (some ⟨2⟩)).1 = sampleTQ ∧
    (sampleTQ.cx (some ⟨1⟩) (some ⟨2⟩)).2 =
      .error (.valueError "Please specify exactly one of source or target") :=
  ⟨rfl, (C5_cx_no_mutation_on_failure sampleTQ (some ⟨1⟩) (some ⟨2⟩) rfl).1,
    (C5_cx_no_mutation_on_failure sampleTQ (some ⟨1⟩) (some ⟨2⟩) rfl).2.2.2⟩

/-- C7: every facade method other than `cx` forwards to the wrapped
lattice unchanged: the resulting circuit is exactly the lattice method
applied to the shared circuit, nothing else of the facade changes, and
`parse_readout` returns exactly the lattice's `parse_readout` result. -/
theorem C7_facade_forwards (tq : TopologicalQubit)
    (classical : ClassicalRegister) (val : Int)
    (readout_creg : Option ClassicalRegister)
    (readout_string : String) (readout_type : Option String) :
    tq.resetX = { tq with circ := tq.lattice.resetX tq.circ } ∧
    tq.resetZ = { tq with circ := tq.lattice.resetZ tq.circ } ∧
    tq.x = { tq with circ := tq.lattice.x tq.circ } ∧
    tq.z = { tq with circ := tq.lattice.z tq.circ } ∧
    tq.xCIf classical val = { tq with circ := tq.lattice.xCIf tq.circ classical val } ∧
    tq.zCIf classical val = { tq with circ := tq.lattice.zCIf tq.circ classical val } ∧
    tq.readoutX readout_creg = { tq with circ := tq.lattice.readoutX tq.circ readout_creg } ∧
    tq.readoutZ readout_creg = { tq with circ := tq.lattice.readoutZ tq.circ readout_creg } ∧
    tq.latticeReadoutX = { tq with circ := tq.lattice.latticeReadoutX tq.circ } ∧
    tq.latticeReadoutZ = { tq with circ := tq.lattice.latticeReadoutZ tq.circ } ∧
    tq.parseReadout readout_string readout_type =
      tq.lattice.parseReadout readout_string readout_type :=
  ⟨rfl, rfl, rfl, rfl, rfl, rfl, rfl, rfl, rfl, rfl, rfl⟩

/-- C9: an empty-list override is falsy, so it selects the stored
blueprint/stabilizer list exactly as an absent argument does: the entangle
call is equal, circuit effect and all, to the default call. -/
theorem C9_empty_override_uses_stored (l : Lattice) (circ : QuantumCircuit) :
    l.entangle circ (some []) (some []) = l.entangle circ none none ∧
    l.entangle circ (some []) none = l.entangle circ none none ∧
    l.entangle circ none (some []) = l.entangle circ none none :=
  ⟨rfl, rfl, rfl⟩

/-- C3: with effective blueprint and stabilizer lists of equal length, the
entangle call succeeds and appends to the circuit exactly the in-order
per-plaquette pattern — each stabilizer's entangle gate sequence over its
paired qubit-index entry followed by one barrier — and nothing else. -/
theorem C3_entangle_emission (l : Lattice) (circ : QuantumCircuit)
    (qubit_indices : Option (List (List Qubit)))
    (stabilizers : Option (List StabilizerClass))
    (h : (effectiveStabilizers l stabilizers).length =
      (effectiveQubitIndices l qubit_indices).length) :
    l.entangle circ qubit_indices stabilizers =
      (l,
       circ.appendOps (plaquetteOps ((effectiveStabilizers l stabilizers).zip
         (effectiveQubitIndices l qubit_indices))),
       .ok ()) := by
  have h0 : 0 + (effectiveStabilizers l stabilizers).length ≤
      (effectiveQubitIndices l qubit_indices).length := by omega
  simp only [Lattice.entangle, entangleLoop_ok _ _ 0 h0, List.drop_zero]

/-- Witness for C3: on the concrete two-plaquette lattice with default
arguments the calls emits the two gate groups each followed by a barrier. -/
theorem C3_entangle_emission_witness :
    (effectiveStabilizers sampleLattice none).length =
      (effectiveQubitIndices sampleLattice none).length ∧
    sampleLattice.entangle {} none none =
      (sampleLattice,
       QuantumCircuit.appendOps {} (plaquetteOps ((effectiveStabilizers sampleLattice none).zip
         (effectiveQubitIndices sampleLattice none))),
       .ok ()) :=
  ⟨rfl, C3_entangle_emission sampleLattice {} none none rfl⟩

/-- C6: entangle is deterministic: two lattices agreeing on the stored
blueprint (qubit-index list and stabilizer list) emit, on default calls,
one and the same appended operation sequence, with the same outcome. -/
theorem C6_entangle_deterministic (l1 l2 : Lattice) (c1 c2 : QuantumCircuit)
    (hq : l1.state.qubit_indices = l2.state.qubit_indices)
    (hs : l1.state.stabilizers = l2.state.stabilizers) :
    ∃ emitted : List Op,
      (l1.entangle c1 none none).2.1.ops = c1.ops ++ emitted ∧
      (l2.entangle c2 none none).2.1.ops = c2.ops ++ emitted ∧
      (l1.entangle c1 none none).2.2 = (l2.entangle c2 none none).2.2 := by
  refine ⟨(entangleLoop l1.state.qubit_indices l1.state.stabilizers 0).1, rfl, ?_, ?_⟩ <;>
    simp [Lattice.entangle, effectiveQubitIndices, effectiveStabilizers, pyBoolList,
      QuantumCircuit.appendOps, hq, hs]

/-- Witness for C6 on two concrete lattices sharing `sampleLatticeState`
but differing in name and circuit. -/
theorem C6_entangle_deterministic_witness :
    sampleLattice.state.qubit_indices =
      (Lattice.mk { sampleLatticeState with name := "u" } {}).state.qubit_indices ∧
    sampleLattice.state.stabilizers =
      (Lattice.mk { sampleLatticeState with name := "u" } {}).state.stabilizers ∧
    ∃ emitted : List Op,
      (sampleLattice.entangle {} none none).2.1.ops = [] ++ emitted ∧
      ((Lattice.mk { sampleLatticeState with name := "u" } {}).entangle
        ⟨[Op.barrier], [], []⟩ none none).2.1.ops = [Op.barrier] ++ emitted ∧
      (sampleLattice.entangle {} none none).2.2 =
        ((Lattice.mk { sampleLatticeState with name := "u" } {}).entangle
          ⟨[Op.barrier], [], []⟩ none none).2.2 :=
  ⟨rfl, rfl,
    C6_entangle_deterministic sampleLattice
      (Lattice.mk { sampleLatticeState with name := "u" } {}) {} ⟨[Op.barrier], [], []⟩
      rfl rfl⟩

/-- C10: when the effective stabilizer list is no longer than the
effective qubit-index list, every `qubit_indices[i]` access of the loop is
in bounds and the entangle call completes without an `IndexError`. -/
theorem C10_entangle_in_bounds (l : Lattice) (circ : QuantumCircuit)
    (qubit_indices : Option (List (List Qubit)))
    (stabilizers : Option (List StabilizerClass))
    (h : (effectiveStabilizers l stabilizers).length ≤
      (effectiveQubitIndices l qubit_indices).length) :
    (l.entangle circ qubit_indices stabilizers).2.2 = .ok () := by
  have h0 : 0 + (effectiveStabilizers l stabilizers).length ≤
      (effectiveQubitIndices l qubit_indices).length := by omega
  simp only [Lattice.entangle, entangleLoop_ok _ _ 0 h0]

/-- Witness for C10: an override with more qubit-index entries than
stabilizers still succeeds on the concrete lattice. -/
theorem C10_entangle_in_bounds_witness :
    (effectiveStabilizers sampleLattice (some [sampleStabilizer])).length ≤
      (effectiveQubitIndices sampleLattice none).length ∧
    (sampleLattice.entangle {} none (some [sampleStabilizer])).2.2 = .ok () :=
  ⟨by simp [effectiveStabilizers, effectiveQubitIndices, pyBoolList, sampleLattice,
      sampleLatticeState],
   C10_entangle_in_bounds sampleLattice {} none (some [sampleStabilizer])
     (by simp [effectiveStabilizers, effectiveQubitIndices, pyBoolList, sampleLattice,
       sampleLatticeState])⟩

/-- C2 counterexample: with a geometry generating no "data" quantum group,
construction does fail fatally, but the error raised is the
`AssertionError` of the `assert` statement, not a `LatticeError`, refuting
the claimed error kind. -/
theorem C2_data_check_counterexample :
    (noDataGeometry.genRegisters [] "tq").1.any (fun kv => kv.1 == "data") = false ∧
    (latticeInit noDataGeometry [] "tq" {}).2 =
      .error (.assertionError "There should be a data qubits register.") ∧
    (PyError.assertionError "There should be a data qubits register.").isLatticeError
      = false :=
  ⟨rfl, rfl, rfl⟩

/-- C2 amended: after register generation, the absence of a "data" quantum
group is a fatal construction error — raised as an `AssertionError` by the
`assert` statement, not as a `LatticeError` — and when a data group exists
construction proceeds past the check through register addition and
blueprint generation. -/
theorem C2_data_check (g : Geometry) (params : List (String × Int)) (name : String)
    (circ : QuantumCircuit) (params2 : List (String × Int))
    (hv : g.validateAndGenerate params = .ok params2) :
    ((g.genRegisters params2 name).1.any (fun kv => kv.1 == "data") = false →
      latticeInit g params name circ =
        ([.validateParams, .genRegisters, .dataCheck],
         .error (.assertionError "There should be a data qubits register."))) ∧
    ((g.genRegisters params2 name).1.any (fun kv => kv.1 == "data") = true →
      ∃ l circ2, latticeInit g params name circ =
        ([.validateParams, .genRegisters, .dataCheck, .addRegisters, .genBlueprint],
         .ok (l, circ2))) := by
  constructor
  · intro hd
    simp [latticeInit, hv, hd]
  · intro hd
    simp only [latticeInit, hv, hd, if_true]
    exact ⟨_, _, rfl⟩

/-- Witness for C2 on both sides: the data-less geometry fails the check
with the `AssertionError`, the data-bearing geometry proceeds past it. -/
theorem C2_data_check_witness :
    (noDataGeometry.validateAndGenerate [] = .ok [] ∧
      (noDataGeometry.genRegisters [] "tq").1.any (fun kv => kv.1 == "data") = false ∧
      latticeInit noDataGeometry [] "tq" {} =
        ([.validateParams, .genRegisters, .dataCheck],
         .error (.assertionError "There should be a data qubits register."))) ∧
    (dataGeometry.validateAndGenerate [("d", 3)] = .ok [("num_syn", 2), ("d", 3)] ∧
      (dataGeometry.genRegisters [("num_syn", 2), ("d", 3)] "tq").1.any
        (fun kv => kv.1 == "data") = true ∧
      ∃ l circ2, latticeInit dataGeometry [("d", 3)] "tq" {} =
        ([.validateParams, .genRegisters, .dataCheck, .addRegisters, .genBlueprint],
         .ok (l, circ2))) :=
  ⟨⟨rfl, rfl, (C2_data_check noDataGeometry [] "tq" {} [] rfl).1 rfl⟩,
   ⟨rfl, rfl, (C2_data_check dataGeometry [("d", 3)] "tq" {} [("num_syn", 2), ("d", 3)]
     rfl).2 rfl⟩⟩

/-- C8: a successful construction runs exactly the five steps — parameter
validation/derivation, register generation, the data-group check, register
addition to the shared circuit, blueprint generation — once each and in
that order; and no later entangle call regenerates or changes the stored
blueprint. -/
theorem C8_init_order (g : Geometry) (params : List (String × Int)) (name : String)
    (circ : QuantumCircuit) (l : Lattice) (circ2 : QuantumCircuit)
    (h : (latticeInit g params name circ).2 = .ok (l, circ2)) :
    (latticeInit g params name circ).1 =
      [.validateParams, .genRegisters, .dataCheck, .addRegisters, .genBlueprint] ∧
    ∀ (circ3 : QuantumCircuit) (qubit_indices : Option (List (List Qubit)))
      (stabilizers : Option (List StabilizerClass)),
      (l.entangle circ3 qubit_indices stabilizers).1.state.qubit_indices =
        l.state.qubit_indices ∧
      (l.entangle circ3 qubit_indices stabilizers).1.state.stabilizers =
        l.state.stabilizers := by
  refine ⟨?_, fun _ _ _ => ⟨rfl, rfl⟩⟩
  unfold latticeInit at h ⊢
  cases hv : g.validateAndGenerate params with
  | error e => rw [hv] at h; simp at h
  | ok params2 =>
    rw [hv] at h
    simp only
    by_cases hd : (g.genRegisters params2 name).1.any (fun kv => kv.1 == "data")
    · simp [hd]
    · simp [hd] at h

/-- Witness for C8 on the concrete data-bearing geometry. -/
theorem C8_init_order_witness :
    (latticeInit dataGeometry [("d", 3)] "tq" {}).2 =
      .ok
        ({ state :=
            { name := "tq", params := [("num_syn", 2), ("d", 3)],
              qregisters := [("data", ⟨"tq_data", 9⟩)],
              cregisters := [("data_readout", ⟨"tq_data_readout", 1⟩)],
              qubit_indices := [[⟨0⟩, ⟨1⟩], [⟨2⟩]],
              stabilizers := [sampleStabilizer, sampleStabilizer] },
           ops := {} },
         { ops := [], qregs := [⟨"tq_data", 9⟩], cregs := [⟨"tq_data_readout", 1⟩] }) ∧
    (latticeInit dataGeometry [("d", 3)] "tq" {}).1 =
      [.validateParams, .genRegisters, .dataCheck, .addRegisters, .genBlueprint] :=
  ⟨rfl,
   (C8_init_order dataGeometry [("d", 3)] "tq" {}
     { state :=
        { name := "tq", params := [("num_syn", 2), ("d", 3)],
          qregisters := [("data", ⟨"tq_data", 9⟩)],
          cregisters := [("data_readout", ⟨"tq_data_readout", 1⟩)],
          qubit_indices := [[⟨0⟩, ⟨1⟩], [⟨2⟩]],
          stabilizers := [sampleStabilizer, sampleStabilizer] },
       ops := {} }
     { ops := [], qregs := [⟨"tq_data", 9⟩], cregs := [⟨"tq_data_readout", 1⟩] }
     rfl).1⟩

end QTCodes
